import Mathlib

/-!
Verification development for the TikTok video generator backend
(backend/server.js).  The definitions below are a shallow embedding of the
media-synthesis pipeline: Pexels asset resolution, script template
synthesis, asset accumulation with fallback escalation, composition
planning (slice durations and the audio-mix filter chain), and the
renderer cleanup handlers.  Durations are modelled as rationals, byte
strings as Lean strings, nullable values as Option, and thrown JS errors
as Except.
-/

namespace Spec2Proof

/-! ### Asset Resolver (getPexelsVideoForLine, server.js lines 108-157)

A Pexels search result carries an integer duration in seconds and a list
of quality-tagged download files.  A file participates in the HD check
when its quality string equals "hd" and its link is non-null (lines
143-149). -/

structure VideoFile where
  quality : String
  link : Option String
deriving DecidableEq, Repr

structure Video where
  vid : Nat
  duration : Nat
  video_files : List VideoFile
deriving DecidableEq, Repr

/-- The duration filter of line 143: v.duration greater or equal 8 and
less or equal 40. -/
def durationInWindow (v : Video) : Bool :=
  decide (8 ≤ v.duration) && decide (v.duration ≤ 40)

/-- The HD-file lookup of line 145: first file whose quality is "hd" and
whose link is non-null. -/
def hdFile (v : Video) : Option VideoFile :=
  v.video_files.find? (fun f => f.quality == "hd" && f.link.isSome)

/-- The candidate-selection block of lines 142-152: when the result list
is non-empty, take the first video whose duration is inside the window;
if that video has an HD file with a link, return the link, otherwise fall
through to null. -/
def selectVideo (videos : List Video) : Option String :=
  if videos.length > 0 then
    match videos.find? durationInWindow with
    | some video =>
      match hdFile video with
      | some hdVideo => hdVideo.link
      | none => none
    | none => none
  else none

inductive TransportError
  | network
  | auth
deriving DecidableEq, Repr

/-- Outcomes of the two axios search calls a single resolver invocation
can make: the primary query (subject plus cue) and the broadened
fallback query (cue alone), each either a thrown transport error or a
returned candidate list. -/
structure SearchTransport where
  primary : Except TransportError (List Video)
  fallback : Except TransportError (List Video)
deriving Repr

/-- getPexelsVideoForLine, lines 108-157.  A missing API key is thrown
outside the try block (line 109) and so propagates to the caller; any
transport error raised by either search call is caught by the
surrounding try/catch and converted to null (lines 153-156).  The
fallback query is issued only when the primary query returned an empty
(or absent) candidate list (line 127). -/
def getPexelsVideoForLine (pexelsApiKeyPresent : Bool) (t : SearchTransport) :
    Except String (Option String) :=
  if !pexelsApiKeyPresent then Except.error "Pexels API Key is missing."
  else
    match t.primary with
    | Except.error _ => Except.ok none
    | Except.ok videos =>
      if videos.length = 0 then
        match t.fallback with
        | Except.error _ => Except.ok none
        | Except.ok videos2 => Except.ok (selectVideo videos2)
      else Except.ok (selectVideo videos)

/-! ### Pipeline errors and asset accumulation (app.post generate,
server.js lines 468-662) -/

inductive PipelineError
  | scriptTooShort
  | noAssetsFound
  | voiceGenerationFailed
  | renderError
deriving DecidableEq, Repr

/-- The primary per-line loop, lines 505-534.  Each iteration is wrapped
in try/catch: a thrown error (AI cue generation or a missing Pexels key)
is caught and logged, a null resolution is skipped, and a resolved URL is
appended unconditionally - the loop performs no duplicate check. -/
def primaryStep (acc : List String) (r : Except Unit (Option String)) : List String :=
  match r with
  | Except.error _ => acc
  | Except.ok none => acc
  | Except.ok (some url) => acc ++ [url]

def primaryAccumulate (results : List (Except Unit (Option String))) : List String :=
  results.foldl primaryStep []

/-- The fallback loop, lines 549-557: before each fallback search the
loop breaks once five URLs are accumulated; a resolved URL is appended
only when it is not already in the list (line 553). -/
def fallbackStep (acc : List String) (r : Option String) : List String :=
  if 5 ≤ acc.length then acc
  else
    match r with
    | none => acc
    | some url => if url ∈ acc then acc else acc ++ [url]

def fallbackAccumulate (acc : List String) (fallbackResults : List (Option String)) :
    List String :=
  fallbackResults.foldl fallbackStep acc

/-- Lines 505-558: run the primary per-line loop, then enter the fallback
loop only when fewer than three URLs were accumulated (line 537). -/
def accumulateAssets (primary : List (Except Unit (Option String)))
    (fallback : List (Option String)) : List String :=
  let acc := primaryAccumulate primary
  if acc.length < 3 then fallbackAccumulate acc fallback else acc

/-- Line 601: videoUrls.slice(0, 5) - at most the first five resolved
URLs, in resolution order, are handed to the renderer. -/
def keptUrls (videoUrls : List String) : List String :=
  videoUrls.take 5

/-- Trace of a run from the zero-asset check (line 560) to the render
call (line 600): the categorized outcome and whether the renderer
(createVideoWithSubtitles) was invoked.  A renderer rejection surfaces
as a render error. -/
structure RunTrace where
  result : Except PipelineError String
  rendererInvoked : Bool
deriving Repr

/-- Step 3 of the endpoint, lines 566-596: background-music selection
never throws (customMusicPath simply stays null when the directory holds
no usable file, lines 574-588), while narration is synthesized only when
the audio option requests voice (line 591); a generateVoice rejection at
line 595 propagates to the outer catch and aborts the run.  The stage
yields the (voiceAudioPath, customMusicPath) pair handed to the
renderer. -/
def audioStage (voiceRequested : Bool) (voiceResult : Except Unit String)
    (customMusicPath : Option String) :
    Except PipelineError (Option String × Option String) :=
  if voiceRequested then
    match voiceResult with
    | Except.error _ => Except.error PipelineError.voiceGenerationFailed
    | Except.ok voicePath => Except.ok (some voicePath, customMusicPath)
  else Except.ok (none, customMusicPath)

/-- Lines 560-608: when zero URLs were accumulated the run throws (could
not find any videos) before anything else happens; otherwise the audio
stage of lines 566-596 runs next, and a narration failure there aborts
the run before the renderer; only then are the first five URLs and the
audio pair rendered and the outcome propagated. -/
def runAssetToRender (urls : List String) (voiceRequested : Bool)
    (voiceResult : Except Unit String) (customMusicPath : Option String)
    (render : List String → Option String × Option String → Except Unit String) :
    RunTrace :=
  if urls.length = 0 then ⟨Except.error PipelineError.noAssetsFound, false⟩
  else
    match audioStage voiceRequested voiceResult customMusicPath with
    | Except.error e => ⟨Except.error e, false⟩
    | Except.ok audio =>
      match render (keptUrls urls) audio with
      | Except.ok out => ⟨Except.ok out, true⟩
      | Except.error _ => ⟨Except.error PipelineError.renderError, true⟩

/-! ### Composition Planner (createVideoWithSubtitles, server.js lines
344-466) -/

/-- Line 376: const totalDuration = 25. -/
def totalDuration : ℚ := 25

/-- Line 377: segmentDuration = totalDuration / downloadedFiles.length,
modelled exactly over the rationals. -/
def segmentDuration (n : Nat) : ℚ :=
  totalDuration / n

/-- Lines 382-385: the per-fragment filter loop pushes one
scale/crop/trim chain per downloaded file, each trimmed to the same
segmentDuration. -/
def sliceDurations (n : Nat) : List ℚ :=
  List.replicate n (segmentDuration n)

/-- A volume plus atrim stage of the audio filter chain: lines 398, 399,
405 and 410 each emit volume=gain,atrim=duration=totalDuration. -/
structure TrackFilter where
  gain : ℚ
  atrimDuration : ℚ
deriving DecidableEq, Repr

/-- The four shapes the audio part of the filter graph can take, lines
395-412: voice plus music mixed with duration=shortest, voice alone,
music alone, or no audio mapping at all. -/
inductive AudioMix
  | voiceAndMusic (voice music : TrackFilter) (amixDurationShortest : Bool)
  | voiceOnly (voice : TrackFilter)
  | musicOnly (music : TrackFilter)
  | silent
deriving DecidableEq, Repr

/-- Lines 395-412: the branch on (voiceAudioPath, customMusicPath).  Both
paths are either null or a generated non-empty file path, so JS
truthiness coincides with Option.isSome.  Gains: 1.2 and 0.15 when both
are present, 1.1 for voice only, 0.4 for music only. -/
def audioMixPlan (voiceAudioPath customMusicPath : Option String) : AudioMix :=
  match voiceAudioPath, customMusicPath with
  | some _, some _ =>
    AudioMix.voiceAndMusic ⟨12/10, totalDuration⟩ ⟨15/100, totalDuration⟩ true
  | some _, none => AudioMix.voiceOnly ⟨11/10, totalDuration⟩
  | none, some _ => AudioMix.musicOnly ⟨4/10, totalDuration⟩
  | none, none => AudioMix.silent

/-- Whether the plan maps an audio stream into the output: the outa map
is pushed in the first three branches only (lines 401, 406, 411). -/
def hasAudioStream : AudioMix → Bool
  | AudioMix.silent => false
  | _ => true

/-- The deterministic processing graph built by createVideoWithSubtitles
before the render starts: per-fragment trim durations (lines 376-385),
the concat node input count (line 389), the audio chain (lines 391-412),
and the hard output duration clamp -t 25 (line 422). -/
structure CompositionGraph where
  sliceDurations : List ℚ
  concatInputs : Nat
  audio : AudioMix
  outputDurationClamp : ℚ
deriving DecidableEq, Repr

def planComposition (downloadedFiles : List String)
    (voiceAudioPath customMusicPath : Option String) : CompositionGraph :=
  { sliceDurations := Spec2Proof.sliceDurations downloadedFiles.length
    concatInputs := downloadedFiles.length
    audio := audioMixPlan voiceAudioPath customMusicPath
    outputDurationClamp := totalDuration }

/-! ### Renderer cleanup (createVideoWithSubtitles event handlers,
server.js lines 441-458) -/

inductive RenderOutcome
  | success
  | failure
deriving DecidableEq, Repr

/-- The files whose deletion a handler attempts, and whether those
deletion attempts swallow their own errors. -/
structure CleanupAction where
  deleted : List String
  deleteErrorsSwallowed : Bool
deriving DecidableEq, Repr

/-- The end handler (lines 441-453) unlinks every downloaded clip and the
voice audio file when present, each unlink guarded by a catch that
discards the error.  The error handler (lines 454-458) only logs and
rejects: it attempts no deletion at all. -/
def rendererCleanup (outcome : RenderOutcome) (downloadedFiles : List String)
    (voiceAudioPath : Option String) : CleanupAction :=
  match outcome with
  | RenderOutcome.success => ⟨downloadedFiles ++ voiceAudioPath.toList, true⟩
  | RenderOutcome.failure => ⟨[], true⟩

/-! ### Script Synthesizer (generateEnhancedScript, server.js lines
195-342)

Each template entry is either a fixed line or a line that splices the
product name in (a JS template literal).  The redundant
replace of the literal substitution marker at lines 333-335 is the
identity on these rendered lines, because the template literal has
already substituted the product name when the arrays are built.
Apostrophes in the source strings appear below as the escape \x27. -/

inductive TLine
  | plain (s : String)
  | subst (pre post : String)
deriving DecidableEq, Repr

def TLine.render (productName : String) : TLine → String
  | TLine.plain s => s
  | TLine.subst pre post => pre ++ productName ++ post

def funnyBeauty : List TLine :=
  [TLine.plain "LINE: My skin said \x27who dis new phone?\x27",
   TLine.subst "LINE: " " literally broke my mirror",
   TLine.plain "LINE: I\x27m glowing like a lightbulb now",
   TLine.plain "LINE: My friends think I got surgery",
   TLine.plain "LINE: Plot twist it actually works besties",
   TLine.plain "LINE: The glow up is absolutely unreal",
   TLine.plain "LINE: I\x27m basically a walking highlighter",
   TLine.plain "LINE: My confidence said thank you queen",
   TLine.plain "LINE: Your skin deserves this magic potion",
   TLine.plain "LINE: Don\x27t walk RUN to get this"]

def funnyTech : List TLine :=
  [TLine.plain "LINE: This gadget broke my brain cells",
   TLine.subst "LINE: " " is from the year 3000",
   TLine.plain "LINE: My life just got a software update",
   TLine.plain "LINE: Why didn\x27t anyone tell me sooner",
   TLine.plain "LINE: It\x27s like having a personal robot",
   TLine.plain "LINE: My productivity went absolutely crazy",
   TLine.plain "LINE: Everyone\x27s asking what my secret is",
   TLine.plain "LINE: This is not a drill people",
   TLine.plain "LINE: Your life needs this upgrade badly",
   TLine.plain "LINE: Trust me and thank me later"]

def funnyFashion : List TLine :=
  [TLine.plain "LINE: This outfit said pick me",
   TLine.subst "LINE: " " is absolutely iconic",
   TLine.plain "LINE: I\x27m serving looks and confidence",
   TLine.plain "LINE: People can\x27t stop staring honestly",
   TLine.plain "LINE: My style game just leveled up",
   TLine.plain "LINE: The compliments are getting ridiculous",
   TLine.plain "LINE: I feel like a main character",
   TLine.plain "LINE: This is my new personality",
   TLine.plain "LINE: You need this in your life",
   TLine.plain "LINE: Get it before everyone else does"]

def funnyFood : List TLine :=
  [TLine.plain "LINE: This taste transported my soul",
   TLine.subst "LINE: " " just changed my life",
   TLine.plain "LINE: I\x27m emotionally attached to this now",
   TLine.plain "LINE: My taste buds are having a party",
   TLine.plain "LINE: I bought ten more immediately",
   TLine.plain "LINE: This is my new obsession officially",
   TLine.plain "LINE: I can\x27t eat anything else",
   TLine.plain "LINE: My friends steal this constantly",
   TLine.plain "LINE: You haven\x27t lived until you try",
   TLine.plain "LINE: Order it right now seriously"]

def excitingBeauty : List TLine :=
  [TLine.subst "LINE: " " is absolutely life changing",
   TLine.plain "LINE: Results in just seven days guaranteed",
   TLine.plain "LINE: My skin transformation is completely insane",
   TLine.plain "LINE: The glow is totally unreal",
   TLine.plain "LINE: Everyone keeps asking my secret routine",
   TLine.plain "LINE: This revolutionized my entire skincare",
   TLine.plain "LINE: The before and after shocked everyone",
   TLine.plain "LINE: I cannot believe the dramatic difference",
   TLine.plain "LINE: Your skin will thank you forever",
   TLine.plain "LINE: Get yours now before complete sellout"]

def excitingTech : List TLine :=
  [TLine.subst "LINE: " " is revolutionary technology",
   TLine.plain "LINE: This will change everything completely",
   TLine.plain "LINE: The performance is absolutely mind blowing",
   TLine.plain "LINE: I\x27m getting incredible results daily",
   TLine.plain "LINE: This solved all my problems",
   TLine.plain "LINE: The speed improvement is unreal",
   TLine.plain "LINE: Everyone needs this in their life",
   TLine.plain "LINE: This is the future right now",
   TLine.plain "LINE: Don\x27t miss out on this game changer",
   TLine.plain "LINE: Order immediately while still available"]

def trendyDefault : List TLine :=
  [TLine.plain "LINE: POV you found the holy grail",
   TLine.subst "LINE: " " hits different bestie",
   TLine.plain "LINE: This is giving main character energy",
   TLine.plain "LINE: The vibe check is absolutely unmatched",
   TLine.plain "LINE: Everyone\x27s copying my aesthetic now",
   TLine.plain "LINE: My confidence just leveled up significantly",
   TLine.plain "LINE: This is not a want it\x27s definitely need",
   TLine.plain "LINE: The compliments keep flowing in daily",
   TLine.plain "LINE: Trust the process and trust me",
   TLine.plain "LINE: Link in bio before it\x27s gone"]

def luxuriousDefault : List TLine :=
  [TLine.subst "LINE: " " is pure luxury experience",
   TLine.plain "LINE: Quality that speaks for itself",
   TLine.plain "LINE: This is investment in yourself",
   TLine.plain "LINE: The craftsmanship is absolutely impeccable",
   TLine.plain "LINE: You deserve this level of excellence",
   TLine.plain "LINE: This elevates your entire lifestyle",
   TLine.plain "LINE: Premium quality meets perfect design",
   TLine.plain "LINE: This is what success looks like",
   TLine.plain "LINE: Treat yourself like royalty today",
   TLine.plain "LINE: Experience luxury that lasts lifetime"]

/-- The closed set of category keys the table is indexed by (lines
310-326); dflt stands for the JS key named default. -/
inductive Category
  | beauty
  | tech
  | fashion
  | food
  | dflt
deriving DecidableEq, Repr

/-- One mood entry of the viralScripts object: each category key either
holds a template set or is absent. -/
structure MoodSet where
  beauty : Option (List TLine)
  tech : Option (List TLine)
  fashion : Option (List TLine)
  food : Option (List TLine)
  dflt : Option (List TLine)
deriving DecidableEq, Repr

def MoodSet.get (m : MoodSet) : Category → Option (List TLine)
  | Category.beauty => m.beauty
  | Category.tech => m.tech
  | Category.fashion => m.fashion
  | Category.food => m.food
  | Category.dflt => m.dflt

def funnySet : MoodSet :=
  ⟨some funnyBeauty, some funnyTech, some funnyFashion, some funnyFood, none⟩

def excitingSet : MoodSet :=
  ⟨some excitingBeauty, some excitingTech, none, none, none⟩

def trendySet : MoodSet :=
  ⟨none, none, none, none, some trendyDefault⟩

def luxuriousSet : MoodSet :=
  ⟨none, none, none, none, some luxuriousDefault⟩

/-- JS string includes, as used for the keyword checks of lines 314-326:
the pattern occurs as a contiguous substring. -/
def listContainsSeg (pat : List Char) : List Char → Bool
  | [] => pat.isEmpty
  | c :: rest => pat.isPrefixOf (c :: rest) || listContainsSeg pat rest

def strIncludes (s pat : String) : Bool :=
  listContainsSeg pat.toList s.toList

/-- JS toLowerCase on the relevant ASCII product and mood strings,
character by character. -/
def strToLower (s : String) : String :=
  ⟨s.data.map Char.toLower⟩

/-- The keyword-to-category if chain of lines 310-326, evaluated over the
lowercased product name; the chain falls through to the default
category. -/
def categoryOf (productName : String) : Category :=
  let p := strToLower productName
  if strIncludes p "serum" || strIncludes p "cream" || strIncludes p "skincare" ||
      strIncludes p "beauty" || strIncludes p "glow" || strIncludes p "face" then
    Category.beauty
  else if strIncludes p "tech" || strIncludes p "gadget" || strIncludes p "phone" ||
      strIncludes p "laptop" || strIncludes p "device" then
    Category.tech
  else if strIncludes p "clothes" || strIncludes p "dress" || strIncludes p "shirt" ||
      strIncludes p "fashion" || strIncludes p "style" then
    Category.fashion
  else if strIncludes p "food" || strIncludes p "snack" || strIncludes p "drink" ||
      strIncludes p "recipe" || strIncludes p "meal" then
    Category.food
  else
    Category.dflt

/-- Line 329: viralScripts indexed by the lowercased mood, with the
trendy entry as the fallback for unrecognized moods. -/
def moodScripts (mood : String) : MoodSet :=
  if strToLower mood == "funny" then funnySet
  else if strToLower mood == "exciting" then excitingSet
  else if strToLower mood == "trendy" then trendySet
  else if strToLower mood == "luxurious" then luxuriousSet
  else trendySet

/-- Line 330: moodScripts[category] or moodScripts.default or
viralScripts.trendy.default. -/
def selectedScript (mood : String) (c : Category) : List TLine :=
  (((moodScripts mood).get c).orElse (fun _ => (moodScripts mood).dflt)).getD
    trendyDefault

/-- generateEnhancedScript, lines 195-342, at line granularity: the
selected template set rendered with the product name.  The source joins
these lines with a newline; the caller at lines 485-488 immediately
splits on newlines again, keeps the lines starting with the LINE marker
and strips it, so the line list is the faithful unit of meaning. -/
def generateEnhancedScript (productName mood : String) : List String :=
  (selectedScript mood (categoryOf productName)).map (TLine.render productName)

/-- Lines 485-492: the endpoint takes at most ten overlay lines and
fails with a script-too-short error when fewer than eight remain.  The
LINE-marker strip and whitespace trim of line 487 change only the text
of each overlay, not their number, and are elided here. -/
def scriptStage (productName mood : String) : Except PipelineError (List String) :=
  let textOverlays := (generateEnhancedScript productName mood).take 10
  if textOverlays.length < 8 then Except.error PipelineError.scriptTooShort
  else Except.ok textOverlays

/-- JS truthiness of the optional request strings at line 477: undefined
and the empty string are falsy. -/
def jsStrTruthy : Option String → Bool
  | none => false
  | some s => !(s == "")

/-- Line 477: productName or productUrl or the literal Amazing Product
default. -/
def finalProductName (productName productUrl : Option String) : String :=
  if jsStrTruthy productName then productName.getD ""
  else if jsStrTruthy productUrl then productUrl.getD ""
  else "Amazing Product"

/-! ## Theorems -/

/-- A candidate list whose first in-window candidate carries no HD file
while a later candidate carries one. -/
def c1NoHdVideo : Video := ⟨101, 10, [⟨"sd", some "sd-link"⟩]⟩

def c1HdVideo : Video := ⟨102, 12, [⟨"hd", some "hd-link"⟩]⟩

/-- A candidate that passes both the duration window and the HD check. -/
def c1GoodVideo : Video := ⟨103, 10, [⟨"hd", some "good-link"⟩]⟩

/-- C1, counterexample: the list [c1NoHdVideo, c1HdVideo] contains a
candidate (c1HdVideo) whose duration is in the window and whose files
include an HD link, so the claim demands that link; the code returns
none because the first in-window candidate, c1NoHdVideo, has no HD
file. -/
theorem c1_counterexample :
    selectVideo [c1NoHdVideo, c1HdVideo] = none ∧
    c1HdVideo ∈ [c1NoHdVideo, c1HdVideo] ∧
    durationInWindow c1HdVideo = true ∧
    (hdFile c1HdVideo).bind VideoFile.link = some "hd-link" := by
  decide

/-- C1, amended: the resolver commits to the first candidate whose
duration lies in the window: it returns the HD link of that candidate
when one exists and none otherwise, never moving on to a later
candidate; moreover every returned link is an HD link of some in-window
candidate of the list. -/
theorem c1_first_window_candidate_decides (videos : List Video) :
    selectVideo videos =
      (videos.find? durationInWindow).bind
        (fun v => (hdFile v).bind VideoFile.link) ∧
    ∀ l : String, selectVideo videos = some l →
      ∃ v, v ∈ videos ∧ durationInWindow v = true ∧
        ∃ f, f ∈ v.video_files ∧ f.quality = "hd" ∧ f.link = some l := by
  have heq : selectVideo videos =
      (videos.find? durationInWindow).bind
        (fun v => (hdFile v).bind VideoFile.link) := by
    cases videos with
    | nil => rfl
    | cons v vs =>
      unfold selectVideo
      rw [if_pos (by simp)]
      cases hf : (v :: vs).find? durationInWindow with
      | none => rfl
      | some w =>
        cases hh : hdFile w with
        | none => simp [hh]
        | some f => simp [hh]
  refine ⟨heq, ?_⟩
  intro l hl
  rw [heq] at hl
  cases hf : videos.find? durationInWindow with
  | none => rw [hf] at hl; exact absurd hl (by simp)
  | some w =>
    rw [hf] at hl
    simp only [Option.some_bind] at hl
    cases hh : hdFile w with
    | none => rw [hh] at hl; exact absurd hl (by simp)
    | some f =>
      rw [hh] at hl
      simp only [Option.some_bind] at hl
      have hw_mem := List.mem_of_find?_eq_some hf
      have hw_p := List.find?_some hf
      have hf_mem := List.mem_of_find?_eq_some hh
      have hf_p := List.find?_some hh
      rw [Bool.and_eq_true] at hf_p
      exact ⟨w, hw_mem, hw_p, f, hf_mem, eq_of_beq hf_p.1, hl⟩

/-- Witness for the amended C1 theorem at a concrete list whose first
in-window candidate does carry an HD link. -/
theorem c1_first_window_candidate_decides_witness :
    ∃ v, v ∈ [c1GoodVideo] ∧ durationInWindow v = true ∧
      ∃ f, f ∈ v.video_files ∧ f.quality = "hd" ∧ f.link = some "good-link" :=
  (c1_first_window_candidate_decides [c1GoodVideo]).2 "good-link" (by decide)

/-- C2: for one to five downloaded fragments the planner assigns every
fragment the identical slice totalDuration divided by the fragment
count, those slices sum to exactly 25 seconds, and any resolved URLs
beyond the fifth are dropped, keeping the first five in resolution
order. -/
theorem c2_equal_slices_sum_and_cap (files urls : List String)
    (vp mp : Option String)
    (h1 : 1 ≤ files.length) (h2 : files.length ≤ 5) :
    (planComposition files vp mp).sliceDurations.sum = totalDuration ∧
    (∀ d ∈ (planComposition files vp mp).sliceDurations,
      d = totalDuration / files.length) ∧
    (5 < urls.length → keptUrls urls = urls.take 5 ∧ (keptUrls urls).length = 5) := by
  have hn : (files.length : ℚ) ≠ 0 := by
    have : files.length ≠ 0 := by omega
    exact_mod_cast this
  refine ⟨?_, ?_, ?_⟩
  · show (List.replicate files.length (segmentDuration files.length)).sum = totalDuration
    rw [List.sum_replicate, nsmul_eq_mul, segmentDuration]
    field_simp
  · intro d hd
    have hd' : d = segmentDuration files.length := List.eq_of_mem_replicate hd
    rw [hd', segmentDuration]
  · intro h5
    refine ⟨rfl, ?_⟩
    rw [keptUrls, List.length_take]
    omega

/-- Witness for C2 at four fragments and a six-element URL list. -/
theorem c2_equal_slices_sum_and_cap_witness :
    (planComposition ["a", "b", "c", "d"] none none).sliceDurations.sum
      = totalDuration ∧
    keptUrls ["u1", "u2", "u3", "u4", "u5", "u6"] = ["u1", "u2", "u3", "u4", "u5"] ∧
    (keptUrls ["u1", "u2", "u3", "u4", "u5", "u6"]).length = 5 :=
  ⟨(c2_equal_slices_sum_and_cap ["a", "b", "c", "d"]
      ["u1", "u2", "u3", "u4", "u5", "u6"] none none (by decide) (by decide)).1,
   ((c2_equal_slices_sum_and_cap ["a", "b", "c", "d"]
      ["u1", "u2", "u3", "u4", "u5", "u6"] none none (by decide) (by decide)).2.2
      (by decide)).1,
   ((c2_equal_slices_sum_and_cap ["a", "b", "c", "d"]
      ["u1", "u2", "u3", "u4", "u5", "u6"] none none (by decide) (by decide)).2.2
      (by decide)).2⟩

/-- C3: the audio chain is a pure function of which of the two audio
paths are present - the fragment list does not influence it - and takes
exactly the four shapes of the AudioMix datatype: gains 1.2 and 0.15
with shortest-stream termination when both are present, 1.1 for voice
only, 0.4 for music only, and no audio stream at all when neither is
present; every present track is trimmed to the 25-second total
duration. -/
theorem c3_audio_mix_pure_four_variants (files1 files2 : List String)
    (vp mp : Option String) (v m : String) :
    (planComposition files1 vp mp).audio = (planComposition files2 vp mp).audio ∧
    audioMixPlan (some v) (some m) =
      AudioMix.voiceAndMusic ⟨12/10, totalDuration⟩ ⟨15/100, totalDuration⟩ true ∧
    audioMixPlan (some v) none = AudioMix.voiceOnly ⟨11/10, totalDuration⟩ ∧
    audioMixPlan none (some m) = AudioMix.musicOnly ⟨4/10, totalDuration⟩ ∧
    audioMixPlan none none = AudioMix.silent ∧
    hasAudioStream (audioMixPlan none none) = false :=
  ⟨rfl, rfl, rfl, rfl, rfl, rfl⟩

/-- C4, counterexample: after a failed render with one downloaded clip
and a voice file on disk, the error handler deletes nothing - contrary
to the claim that temporary assets are deleted on the failure path as
well. -/
theorem c4_counterexample :
    (rendererCleanup RenderOutcome.failure ["clip-0.mp4"]
      (some "voice-7.mp3")).deleted = [] ∧
    "clip-0.mp4" ∉ (rendererCleanup RenderOutcome.failure ["clip-0.mp4"]
      (some "voice-7.mp3")).deleted ∧
    "voice-7.mp3" ∉ (rendererCleanup RenderOutcome.failure ["clip-0.mp4"]
      (some "voice-7.mp3")).deleted := by
  decide

/-- C4, amended: the downloaded fragments and the narration audio are
deleted only on the success path of rendering, where each deletion
swallows its own errors; the failure path performs no deletion of the
temporary assets. -/
theorem c4_cleanup_on_success_only (files : List String) (vp : Option String)
    (f : String) (hf : f ∈ files ++ vp.toList) :
    f ∈ (rendererCleanup RenderOutcome.success files vp).deleted ∧
    (rendererCleanup RenderOutcome.success files vp).deleteErrorsSwallowed = true ∧
    (rendererCleanup RenderOutcome.failure files vp).deleted = [] :=
  ⟨hf, rfl, rfl⟩

/-- Witness for the amended C4 theorem with one clip and a voice file. -/
theorem c4_cleanup_on_success_only_witness :
    "clip-0.mp4" ∈ (rendererCleanup RenderOutcome.success ["clip-0.mp4"]
      (some "voice-7.mp3")).deleted ∧
    (rendererCleanup RenderOutcome.success ["clip-0.mp4"]
      (some "voice-7.mp3")).deleteErrorsSwallowed = true ∧
    (rendererCleanup RenderOutcome.failure ["clip-0.mp4"]
      (some "voice-7.mp3")).deleted = [] :=
  c4_cleanup_on_success_only ["clip-0.mp4"] (some "voice-7.mp3") "clip-0.mp4"
    (by decide)

/-- C5, counterexample: two primary per-line queries resolving to the
same URL are both appended - the accumulated list carries a duplicate
reference, because the primary loop performs no duplicate check. -/
theorem c5_counterexample :
    accumulateAssets [Except.ok (some "u1"), Except.ok (some "u1")] []
      = ["u1", "u1"] ∧
    ¬ (accumulateAssets [Except.ok (some "u1"), Except.ok (some "u1")] []).Nodup := by
  constructor
  · rfl
  · decide

/-- One fallback step keeps the accumulated list duplicate-free. -/
theorem fallbackStep_nodup (acc : List String) (r : Option String)
    (h : acc.Nodup) : (fallbackStep acc r).Nodup := by
  unfold fallbackStep
  split
  · exact h
  · cases r with
    | none => exact h
    | some url =>
      by_cases hmem : url ∈ acc
      · simpa [hmem] using h
      · simp only [hmem, if_false]
        simp [List.nodup_append, h, hmem]

/-- C5, amended: deduplication happens only at the fallback stage - a
fallback result already in the accumulated list is skipped, so a
duplicate-free accumulated list stays duplicate-free through the whole
fallback escalation; the primary loop appends without any duplicate
check, so identical primary results do produce duplicates. -/
theorem c5_fallback_dedup_preserves_nodup (acc : List String)
    (fbs : List (Option String)) (h : acc.Nodup) :
    (fallbackAccumulate acc fbs).Nodup := by
  induction fbs generalizing acc with
  | nil => exact h
  | cons r rs ih =>
    rw [fallbackAccumulate, List.foldl_cons]
    exact ih (fallbackStep acc r) (fallbackStep_nodup acc r h)

/-- Witness for the amended C5 theorem: a fallback result equal to an
already accumulated URL is skipped and the list stays duplicate-free. -/
theorem c5_fallback_dedup_preserves_nodup_witness :
    (fallbackAccumulate ["u1"] [some "u1", some "u2"]).Nodup :=
  c5_fallback_dedup_preserves_nodup ["u1"] [some "u1", some "u2"] (by decide)

/-- The audio stage has a single failure mode: a requested narration
synthesis that throws, surfaced as the voice-generation error. -/
theorem audioStage_error_eq (voiceRequested : Bool)
    (voiceResult : Except Unit String) (customMusicPath : Option String)
    (e : PipelineError)
    (h : audioStage voiceRequested voiceResult customMusicPath = Except.error e) :
    e = PipelineError.voiceGenerationFailed := by
  unfold audioStage at h
  split at h
  · cases voiceResult with
    | error u =>
      injection h with h
      exact h.symm
    | ok p => simp at h
  · simp at h

/-- C6: a run whose accumulated URL list is empty after the primary loop
plus fallback escalation fails with the no-assets error and never
invokes the renderer; with at least one accumulated URL the no-assets
error can no longer arise - the asset stage is pipeline-fatal exactly in
the zero-count case - and the run reaches the renderer whenever the
intervening audio stage succeeds, while a narration failure there aborts
the run before the renderer with the voice-generation error instead. -/
theorem c6_zero_assets_fatal (primary : List (Except Unit (Option String)))
    (fbs : List (Option String)) (voiceRequested : Bool)
    (voiceResult : Except Unit String) (customMusicPath : Option String)
    (render : List String → Option String × Option String → Except Unit String) :
    ((accumulateAssets primary fbs).length = 0 →
      (runAssetToRender (accumulateAssets primary fbs) voiceRequested voiceResult
          customMusicPath render).result
          = Except.error PipelineError.noAssetsFound ∧
      (runAssetToRender (accumulateAssets primary fbs) voiceRequested voiceResult
          customMusicPath render).rendererInvoked = false) ∧
    ((accumulateAssets primary fbs).length ≠ 0 →
      (runAssetToRender (accumulateAssets primary fbs) voiceRequested voiceResult
          customMusicPath render).result
          ≠ Except.error PipelineError.noAssetsFound ∧
      (∀ audio, audioStage voiceRequested voiceResult customMusicPath
          = Except.ok audio →
        (runAssetToRender (accumulateAssets primary fbs) voiceRequested voiceResult
            customMusicPath render).rendererInvoked = true) ∧
      (∀ e, audioStage voiceRequested voiceResult customMusicPath
          = Except.error e →
        (runAssetToRender (accumulateAssets primary fbs) voiceRequested voiceResult
            customMusicPath render).result
            = Except.error PipelineError.voiceGenerationFailed ∧
        (runAssetToRender (accumulateAssets primary fbs) voiceRequested voiceResult
            customMusicPath render).rendererInvoked = false)) := by
  constructor
  · intro h0
    rw [runAssetToRender, if_pos h0]
    exact ⟨rfl, rfl⟩
  · intro hne
    rw [runAssetToRender, if_neg hne]
    refine ⟨?_, ?_, ?_⟩
    · cases haud : audioStage voiceRequested voiceResult customMusicPath with
      | error e =>
        have he := audioStage_error_eq voiceRequested voiceResult customMusicPath e haud
        subst he
        simp
      | ok audio =>
        cases hren : render (keptUrls (accumulateAssets primary fbs)) audio <;>
          simp [hren]
    · intro audio haud
      rw [haud]
      cases hren : render (keptUrls (accumulateAssets primary fbs)) audio <;>
        simp [hren]
    · intro e haud
      have he := audioStage_error_eq voiceRequested voiceResult customMusicPath e haud
      rw [haud, he]
      exact ⟨rfl, rfl⟩

/-- Witness for C6: a run with no resolved URLs fails with the no-assets
error without invoking the renderer; a run with one resolved URL and no
narration requested passes the audio stage and invokes the renderer. -/
theorem c6_zero_assets_fatal_witness :
    (runAssetToRender (accumulateAssets [] []) false (Except.ok "voice.mp3") none
        (fun _ _ => Except.ok "out.mp4")).result
      = Except.error PipelineError.noAssetsFound ∧
    (runAssetToRender (accumulateAssets [] []) false (Except.ok "voice.mp3") none
        (fun _ _ => Except.ok "out.mp4")).rendererInvoked = false ∧
    (runAssetToRender (accumulateAssets [Except.ok (some "u1")] []) false
        (Except.ok "voice.mp3") none
        (fun _ _ => Except.ok "out.mp4")).rendererInvoked = true :=
  ⟨((c6_zero_assets_fatal [] [] false (Except.ok "voice.mp3") none
      (fun _ _ => Except.ok "out.mp4")).1 rfl).1,
   ((c6_zero_assets_fatal [] [] false (Except.ok "voice.mp3") none
      (fun _ _ => Except.ok "out.mp4")).1 rfl).2,
   (((c6_zero_assets_fatal [Except.ok (some "u1")] [] false (Except.ok "voice.mp3")
      none (fun _ _ => Except.ok "out.mp4")).2 (by decide)).2.1 (none, none) rfl)⟩

/-- C7: with the API key configured, a transport error thrown by the
primary search - or by the fallback search issued after an empty primary
result - is caught by the resolver and converted to a null result
instead of propagating; and at the orchestrator a failed cue
contributes nothing to the accumulated list while the remaining cues
are processed unchanged, so a single failure is never pipeline-fatal. -/
theorem c7_transport_errors_absorbed (t : SearchTransport) (e : TransportError)
    (xs ys : List (Except Unit (Option String))) :
    (t.primary = Except.error e →
      getPexelsVideoForLine true t = Except.ok none) ∧
    (t.primary = Except.ok [] → t.fallback = Except.error e →
      getPexelsVideoForLine true t = Except.ok none) ∧
    primaryAccumulate (xs ++ Except.error () :: ys) = primaryAccumulate (xs ++ ys) := by
  refine ⟨?_, ?_, ?_⟩
  · intro hp
    simp [getPexelsVideoForLine, hp]
  · intro hp hf
    simp [getPexelsVideoForLine, hp, hf]
  · rw [primaryAccumulate, primaryAccumulate, List.foldl_append, List.foldl_append,
      List.foldl_cons]
    rfl

/-- Witness for C7: a resolver run whose primary search throws a network
error returns a null result. -/
theorem c7_transport_errors_absorbed_witness :
    getPexelsVideoForLine true
      ⟨Except.error TransportError.network, Except.ok []⟩ = Except.ok none :=
  (c7_transport_errors_absorbed
    ⟨Except.error TransportError.network, Except.ok []⟩ TransportError.network
    [] []).1 rfl

/-- Every template set the mood/category selection can land on has
exactly ten entries. -/
theorem selectedScript_length (mood : String) (c : Category) :
    (selectedScript mood c).length = 10 := by
  unfold selectedScript moodScripts
  split
  · cases c <;> rfl
  · split
    · cases c <;> rfl
    · split
      · cases c <;> rfl
      · split
        · cases c <;> rfl
        · cases c <;> rfl

/-- C8: for every subject and mood the synthesizer returns exactly ten
script lines, and whenever the selected template set references the
subject (a substitution entry) the corresponding returned line embeds
the subject string between the entry fixed parts. -/
theorem c8_script_ten_lines (productName mood : String) :
    (generateEnhancedScript productName mood).length = 10 ∧
    ∀ pre post,
      TLine.subst pre post ∈ selectedScript mood (categoryOf productName) →
      (pre ++ productName ++ post) ∈ generateEnhancedScript productName mood := by
  constructor
  · rw [generateEnhancedScript, List.length_map, selectedScript_length]
  · intro pre post ht
    rw [generateEnhancedScript]
    exact List.mem_map_of_mem (TLine.render productName) ht

/-- Witness for C8 at the scenario subject Magic Glow Serum with the
funny mood: ten lines, and the substitution entry of the beauty set
yields a line carrying the subject. -/
theorem c8_script_ten_lines_witness :
    (generateEnhancedScript "Magic Glow Serum" "funny").length = 10 ∧
    ("LINE: " ++ "Magic Glow Serum" ++ " literally broke my mirror")
      ∈ generateEnhancedScript "Magic Glow Serum" "funny" :=
  ⟨(c8_script_ten_lines "Magic Glow Serum" "funny").1,
   (c8_script_ten_lines "Magic Glow Serum" "funny").2 "LINE: "
     " literally broke my mirror" (by decide)⟩

/-- C9: for a recognized mood whose entry has neither a set for the
resolved category nor a default set, selection falls through to the
trendy default templates of a different mood: the funny mood with a
no-keyword subject, and the exciting mood with the fashion or food
category, all yield the trendy default lines. -/
theorem c9_cross_mood_default_fallback (p : String)
    (h : categoryOf p = Category.dflt) :
    generateEnhancedScript p "funny" = trendyDefault.map (TLine.render p) ∧
    selectedScript "funny" Category.dflt = trendyDefault ∧
    selectedScript "exciting" Category.fashion = trendyDefault ∧
    selectedScript "exciting" Category.food = trendyDefault := by
  refine ⟨?_, rfl, rfl, rfl⟩
  rw [generateEnhancedScript, h]
  rfl

/-- Witness for C9 at the subject random gizmo, which matches no
category keyword under the funny mood. -/
theorem c9_cross_mood_default_fallback_witness :
    generateEnhancedScript "random gizmo" "funny"
      = trendyDefault.map (TLine.render "random gizmo") :=
  (c9_cross_mood_default_fallback "random gizmo" (by decide)).1

/-- C10: when the request carries neither a product name nor a product
URL (absent or empty strings), the endpoint does not reject the run: the
subject defaults to the literal Amazing Product and the script stage
succeeds with ten overlay lines. -/
theorem c10_defaulted_subject (pn pu : Option String) (mood : String)
    (hp : pn = none ∨ pn = some "") (hu : pu = none ∨ pu = some "") :
    finalProductName pn pu = "Amazing Product" ∧
    scriptStage (finalProductName pn pu) mood
      = Except.ok ((generateEnhancedScript "Amazing Product" mood).take 10) ∧
    ((generateEnhancedScript "Amazing Product" mood).take 10).length = 10 := by
  have h1 : finalProductName pn pu = "Amazing Product" := by
    rcases hp with rfl | rfl <;> rcases hu with rfl | rfl <;> rfl
  have hlen : (generateEnhancedScript "Amazing Product" mood).length = 10 := by
    rw [generateEnhancedScript, List.length_map, selectedScript_length]
  have htake : ((generateEnhancedScript "Amazing Product" mood).take 10).length = 10 := by
    rw [List.length_take, hlen]
    simp
  refine ⟨h1, ?_, htake⟩
  rw [h1]
  simp only [scriptStage]
  rw [htake]
  norm_num

/-- Witness for C10 with both request fields degenerate: the name absent
and the URL the empty string. -/
theorem c10_defaulted_subject_witness :
    finalProductName none (some "") = "Amazing Product" ∧
    scriptStage (finalProductName none (some "")) "Energetic"
      = Except.ok ((generateEnhancedScript "Amazing Product" "Energetic").take 10) :=
  ⟨(c10_defaulted_subject none (some "") "Energetic" (Or.inl rfl) (Or.inr rfl)).1,
   (c10_defaulted_subject none (some "") "Energetic" (Or.inl rfl) (Or.inr rfl)).2.1⟩

end Spec2Proof
